import Mathlib

/-!
Verification development for the sleep-dashboard repository
(`SleepHealth_Analysis_Main.py` and `test2.py`).

The Python sources are shallowly embedded: a pandas row becomes a `Record`
structure, the DataFrame becomes a `List Record`, boolean-mask filtering
becomes `List.filter`, and pandas `Series.mean()` — which yields `NaN` on an
empty series — becomes an `Option ℚ` valued mean where `none` stands for
`NaN`.  Comparisons against `NaN` are false in Python/numpy, which is
mirrored by `ltN`/`gtN` returning `false` on `none`.
-/

/-- One row of the dataset (columns of the CSV /
the synthetic generator in `SleepHealth_Analysis_Main.py`, lines 32-44). -/
structure Record where
  age : ℤ
  gender : String
  occupation : String
  sleep_duration : ℚ
  quality_of_sleep : ℤ
  stress_level : ℤ
  physical_activity_level : ℤ
  heart_rate : ℤ
  daily_steps : ℤ
  sleep_disorder : String
  bmi_category : String
deriving DecidableEq

/-- The four dropdown values of the dashboard; `"All"` means unconstrained
(`SleepHealth_Analysis_Main.py`, callbacks' `gender`, `age_group`,
`occupation`, `disorder` arguments). -/
structure FilterSpec where
  gender : String
  age_group : String
  occupation : String
  disorder : String
deriving DecidableEq

/-- The `age_group` column computed by
`pd.cut(df['age'], bins=[0, 30, 40, 50, 60, 100], labels=[...])`
(`SleepHealth_Analysis_Main.py`, lines 47-48).  `pd.cut` uses right-closed
intervals `(0,30], (30,40], (40,50], (50,60], (60,100]`; an age outside all
bins gets `NaN`, modelled as `none`. -/
def ageGroup (age : ℤ) : Option String :=
  if 0 < age ∧ age ≤ 30 then some "Under 30"
  else if 30 < age ∧ age ≤ 40 then some "30-40"
  else if 40 < age ∧ age ≤ 50 then some "40-50"
  else if 50 < age ∧ age ≤ 60 then some "50-60"
  else if 60 < age ∧ age ≤ 100 then some "Over 60"
  else none

/-- `if gender != "All": filtered_df = filtered_df[filtered_df['gender'] == gender]`
(`SleepHealth_Analysis_Main.py`, lines 375-376). -/
def filterGender (s : FilterSpec) (l : List Record) : List Record :=
  if s.gender = "All" then l else l.filter fun r => r.gender == s.gender

/-- `if age_group != "All": filtered_df = filtered_df[filtered_df['age_group'] == age_group]`
(lines 377-378).  A row whose `age_group` is `NaN` (= `none`) never equals a
label, exactly as in pandas. -/
def filterAge (s : FilterSpec) (l : List Record) : List Record :=
  if s.age_group = "All" then l else l.filter fun r => ageGroup r.age == some s.age_group

/-- `if occupation != "All": ...` (lines 379-380). -/
def filterOccupation (s : FilterSpec) (l : List Record) : List Record :=
  if s.occupation = "All" then l else l.filter fun r => r.occupation == s.occupation

/-- `if disorder != "All": ...` (lines 381-382). -/
def filterDisorder (s : FilterSpec) (l : List Record) : List Record :=
  if s.disorder = "All" then l else l.filter fun r => r.sleep_disorder == s.disorder

/-- The shared filter block of every callback in
`SleepHealth_Analysis_Main.py` (e.g. lines 374-382): the four conditional
masks applied in source order to a copy of the dataset. -/
def applyFilter (ds : List Record) (s : FilterSpec) : List Record :=
  filterDisorder s (filterOccupation s (filterAge s (filterGender s ds)))

/-- Reference predicate following the SPEC's words (§4.3 / §8.1): a record
matches when every non-"All" constraint holds under case-sensitive
categorical equality, composed with logical AND.  Kept separate from
`applyFilter` (which is translated from the source) so the two can be
compared. -/
def specFilterPred (s : FilterSpec) (r : Record) : Bool :=
  ((s.gender == "All") || (r.gender == s.gender)) &&
  ((s.age_group == "All") || (ageGroup r.age == some s.age_group)) &&
  ((s.occupation == "All") || (r.occupation == s.occupation)) &&
  ((s.disorder == "All") || (r.sleep_disorder == s.disorder))

/-- The FilterSpec with no active constraint. -/
def allAllSpec : FilterSpec := ⟨"All", "All", "All", "All"⟩

/-- `filtered_df = df if gender in (None, "All") else df[df['gender'] == gender]`
(`test2.py`, line 317).  Returns (global dataset after the callback, the
filtered view handed to the six figures). -/
def updateDashboard (df : List Record) (gender : Option String) : List Record × List Record :=
  match gender with
  | none => (df, df)
  | some g => if g = "All" then (df, df) else (df, df.filter fun r => r.gender == g)

/-- pandas `Series.mean()`: arithmetic mean of the values, `NaN` (= `none`)
when the series is empty — the source has no empty-subset guard. -/
def meanQ (xs : List ℚ) : Option ℚ :=
  if xs = [] then none else some (xs.sum / xs.length)

/-- `(series_predicate).mean() * 100`, the percentage computations of
`update_personalized_insights` (lines 885-887): mean of a 0/1 indicator,
scaled to a percentage; `NaN` on an empty subset. -/
def pctQ (rows : List Record) (p : Record → Bool) : Option ℚ :=
  (meanQ (rows.map fun r => if p r then (1 : ℚ) else 0)).map (· * 100)

/-- `avg_sleep = filtered_df['sleep_duration'].mean()` (line 883 / 385). -/
def avgSleep (rows : List Record) : Option ℚ := meanQ (rows.map (·.sleep_duration))

/-- `avg_quality = filtered_df['quality_of_sleep'].mean()` (line 884 / 386). -/
def avgQuality (rows : List Record) : Option ℚ :=
  meanQ (rows.map fun r => (r.quality_of_sleep : ℚ))

/-- `avg_stress = filtered_df['stress_level'].mean()` (line 387). -/
def avgStress (rows : List Record) : Option ℚ :=
  meanQ (rows.map fun r => (r.stress_level : ℚ))

/-- `avg_activity = filtered_df['physical_activity_level'].mean()` (line 388). -/
def avgActivity (rows : List Record) : Option ℚ :=
  meanQ (rows.map fun r => (r.physical_activity_level : ℚ))

/-- `sleep_disorders_pct = (filtered_df['sleep_disorder'] != 'None').mean() * 100`
(line 885). -/
def sleepDisordersPct (rows : List Record) : Option ℚ :=
  pctQ rows fun r => !(r.sleep_disorder == "None")

/-- `high_stress_pct = (filtered_df['stress_level'] > 7).mean() * 100` (line 886). -/
def highStressPct (rows : List Record) : Option ℚ :=
  pctQ rows fun r => decide (7 < r.stress_level)

/-- `low_activity_pct = (filtered_df['physical_activity_level'] < 50).mean() * 100`
(line 887). -/
def lowActivityPct (rows : List Record) : Option ℚ :=
  pctQ rows fun r => decide (r.physical_activity_level < 50)

/-- A Python `<` comparison whose left side may be `NaN`: false on `NaN`,
the numeric comparison otherwise. -/
def ltN (x : Option ℚ) (c : ℚ) : Bool :=
  match x with
  | none => false
  | some v => decide (v < c)

/-- A Python `>` comparison whose left side may be `NaN`. -/
def gtN (x : Option ℚ) (c : ℚ) : Bool :=
  match x with
  | none => false
  | some v => decide (c < v)

/-- The nine distinct insight blocks `update_personalized_insights` can
emit (lines 893-952), identified by their headings. -/
inductive InsightKind where
  | durationAlert
  | durationConcern
  | durationHealthy
  | qualityPoor
  | qualityModerate
  | qualityGood
  | highStress
  | lowActivity
  | disorderPrevalence
deriving DecidableEq

/-- One emitted insight: its kind plus the aggregate value interpolated into
its text (`none` when the interpolated value is `NaN`). -/
structure Insight where
  kind : InsightKind
  value : Option ℚ
deriving DecidableEq

/-- The duration ladder `if avg_sleep < 6: ... elif avg_sleep < 7: ... else: ...`
(lines 893-910). -/
def sleepDurationKind (x : Option ℚ) : InsightKind :=
  if ltN x 6 then .durationAlert
  else if ltN x 7 then .durationConcern
  else .durationHealthy

/-- The quality ladder `if avg_quality < 5: ... elif avg_quality < 7: ... else: ...`
(lines 913-930). -/
def qualityKind (x : Option ℚ) : InsightKind :=
  if ltN x 5 then .qualityPoor
  else if ltN x 7 then .qualityModerate
  else .qualityGood

/-- The `insights` list built by `update_personalized_insights`
(lines 890-952): duration block, quality block, then the three conditional
warnings appended in source order. -/
def genInsights (rows : List Record) : List Insight :=
  [⟨sleepDurationKind (avgSleep rows), avgSleep rows⟩,
   ⟨qualityKind (avgQuality rows), avgQuality rows⟩] ++
  (if gtN (highStressPct rows) 50 then [⟨.highStress, highStressPct rows⟩] else []) ++
  (if gtN (lowActivityPct rows) 60 then [⟨.lowActivity, lowActivityPct rows⟩] else []) ++
  (if gtN (sleepDisordersPct rows) 30 then [⟨.disorderPrevalence, sleepDisordersPct rows⟩] else [])

/-- `update_summary_cards` (lines 369-402): filters the dataset and computes
the four card means.  Returns (global dataset after the callback, the four
card values); a `none` card is a `NaN` that the f-string renders as "nan". -/
def updateSummaryCards (df : List Record) (s : FilterSpec) :
    List Record × (Option ℚ × Option ℚ × Option ℚ × Option ℚ) :=
  (df, (avgSleep (applyFilter df s), avgQuality (applyFilter df s),
        avgStress (applyFilter df s), avgActivity (applyFilter df s)))

/-- `update_personalized_insights` (lines 865-981) as a state transformer:
global dataset after the callback, plus the emitted insight list. -/
def updatePersonalizedInsights (df : List Record) (s : FilterSpec) :
    List Record × List Insight :=
  (df, genInsights (applyFilter df s))

/-- The three-record dataset of spec §8.6 (unconstrained attributes filled
with arbitrary fixed values). -/
def scenarioDataset : List Record :=
  [⟨25, "Male", "Doctor", 5, 3, 9, 20, 70, 5000, "Insomnia", "Normal"⟩,
   ⟨35, "Female", "Nurse", 8, 8, 2, 80, 65, 9000, "None", "Normal"⟩,
   ⟨45, "Male", "Teacher", 13/2, 6, 6, 40, 72, 7000, "None", "Overweight"⟩]

/-- FilterSpec selecting gender "Male" only. -/
def maleSpec : FilterSpec := ⟨"Male", "All", "All", "All"⟩

/-- The §8.6 scenario's filtered subset. -/
def scenarioMales : List Record := applyFilter scenarioDataset maleSpec

/-- A FilterSpec whose gender value matches no record of `scenarioDataset`,
producing an empty filtered subset. -/
def emptySpec : FilterSpec := ⟨"Nobody", "All", "All", "All"⟩


/-- First-occurrence deduplication, the model of pandas
`Series.unique()` used in `filtered_df['occupation'].unique()`
(`SleepHealth_Analysis_Main.py`, lines 783, 809). -/
def uniqueAux (seen : List String) : List String → List String
  | [] => []
  | a :: l => if a ∈ seen then uniqueAux seen l else a :: uniqueAux (a :: seen) l

/-- `Series.unique()`: the distinct values in first-occurrence order. -/
def uniqueList (l : List String) : List String := uniqueAux [] l

/-- pandas `Series.mean()` on a series known to be nonempty (every group a
`groupby` produces has at least one row): plain `sum / length`. -/
def meanD (xs : List ℚ) : ℚ := xs.sum / xs.length

/-- One row of `occupation_analysis = filtered_df.groupby('occupation').agg(...)`
(lines 784-788): an occupation with its mean quality, stress, duration. -/
structure GroupAgg where
  occupation : String
  quality : ℚ
  stress : ℚ
  duration : ℚ
deriving DecidableEq

/-- Descending-by-mean-quality ordering:
`sort_values('quality_of_sleep', ascending=False)` (line 790). -/
def qDesc (a b : GroupAgg) : Prop := b.quality ≤ a.quality

instance : DecidableRel qDesc :=
  fun a b => inferInstanceAs (Decidable (b.quality ≤ a.quality))

instance : IsTotal GroupAgg qDesc := ⟨fun a b => le_total b.quality a.quality⟩

instance : IsTrans GroupAgg qDesc := ⟨fun _ _ _ h1 h2 => le_trans h2 h1⟩

/-- The per-occupation aggregate table of lines 784-788: one entry per
distinct occupation, carrying the means over that occupation's rows. -/
def groupAggs (rows : List Record) : List GroupAgg :=
  (uniqueList (rows.map (·.occupation))).map fun o =>
    ⟨o,
     meanD (((rows.filter fun r => r.occupation == o).map fun r => (r.quality_of_sleep : ℚ))),
     meanD (((rows.filter fun r => r.occupation == o).map fun r => (r.stress_level : ℚ))),
     meanD ((rows.filter fun r => r.occupation == o).map (·.sleep_duration))⟩

/-- The occupation figure of `update_trend_analysis` (lines 782-833): either
a per-occupation grouped bar chart or the single-occupation two-bar
comparison against the full dataset's averages. -/
inductive OccFig where
  | grouped (gs : List GroupAgg)
  | comparison (occ : String) (selQuality overallQuality selStress overallStress : ℚ)
deriving DecidableEq

/-- Lines 782-833: `if len(filtered_df['occupation'].unique()) > 1` group by
occupation, aggregate means, and sort by mean quality descending; otherwise
take `filtered_df['occupation'].iloc[0]` (an `IndexError`, modelled `none`,
when the subset is empty) and compare its means against the full dataset
`df`'s means. -/
def occupationAnalysis (full rows : List Record) : Option OccFig :=
  if 1 < (uniqueList (rows.map (·.occupation))).length then
    some (.grouped (List.insertionSort qDesc (groupAggs rows)))
  else
    match rows with
    | [] => none
    | r :: _ =>
      some (.comparison r.occupation
        (meanD (rows.map fun x => (x.quality_of_sleep : ℚ)))
        (meanD (full.map fun x => (x.quality_of_sleep : ℚ)))
        (meanD (rows.map fun x => (x.stress_level : ℚ)))
        (meanD (full.map fun x => (x.stress_level : ℚ))))

/-- `update_trend_analysis` (lines 710-854) as a state transformer on the
global dataset. -/
def updateTrendAnalysis (df : List Record) (s : FilterSpec) :
    List Record × Option OccFig :=
  (df, occupationAnalysis df (applyFilter df s))

/-- `update_sleep_patterns` (lines 414-488): filters and charts; only the
filtered view matters for the data model. -/
def updateSleepPatterns (df : List Record) (s : FilterSpec) :
    List Record × List Record :=
  (df, applyFilter df s)

/-- The BMI-tab relabelling
`filtered_df['bmi_category'].replace({'Normal': 'Underweight', 'Normal Weight': 'Normal'})`
(lines 633-636), applied to one cell. -/
def replaceBmi (s : String) : String :=
  if s = "Normal" then "Underweight"
  else if s = "Normal Weight" then "Normal"
  else s

/-- The column assignment of lines 633-636 applied to the copied frame. -/
def relabelBmi (rows : List Record) : List Record :=
  rows.map fun r =>
    ⟨r.age, r.gender, r.occupation, r.sleep_duration, r.quality_of_sleep,
     r.stress_level, r.physical_activity_level, r.heart_rate, r.daily_steps,
     r.sleep_disorder, replaceBmi r.bmi_category⟩

/-- `update_factor_content` (lines 500-698): the stress and activity tabs
use the filtered copy as is; the BMI tab relabels `bmi_category` on that
copy before charting.  The first component is the global dataset after the
callback. -/
def updateFactorContent (df : List Record) (tab : String) (s : FilterSpec) :
    List Record × List Record :=
  if tab = "stress" then (df, applyFilter df s)
  else if tab = "activity" then (df, applyFilter df s)
  else (df, relabelBmi (applyFilter df s))

/-- The configuration of a synthetic-data fallback: which columns it
creates, how many rows, which numpy seed, and whether it writes the CSV. -/
structure LoaderOutcome where
  columns : List String
  nSamples : ℕ
  seed : ℕ
  persisted : Bool
deriving DecidableEq

/-- The fallback of `SleepHealth_Analysis_Main.py` (lines 23-44):
`np.random.seed(42)`, 200 rows, all dashboard columns including
`occupation`; the generated frame is never written back (`to_csv` absent). -/
def mainFallback : LoaderOutcome :=
  ⟨["age", "gender", "occupation", "sleep_duration", "quality_of_sleep",
    "stress_level", "physical_activity_level", "heart_rate", "daily_steps",
    "sleep_disorder", "bmi_category"], 200, 42, false⟩

/-- The fallback of `test2.py` (lines 14-50): `np.random.seed(42)`, 500
rows, no `occupation` column, and the frame is persisted via
`df.to_csv("sleep_health_cleaned_for_dashboard.csv", index=False)`. -/
def test2Fallback : LoaderOutcome :=
  ⟨["gender", "age", "sleep_duration", "quality_of_sleep",
    "physical_activity_level", "stress_level", "bmi_category", "heart_rate",
    "daily_steps", "sleep_disorder"], 500, 42, true⟩

/-- What a loader run produced. -/
inductive LoadResult where
  | fromFile
  | synthesized (o : LoaderOutcome)
deriving DecidableEq

/-- `SleepHealth_Analysis_Main.py` lines 16-44: read the primary path,
fall back to `data/`, and synthesize only when both are absent. -/
def mainLoad (primaryExists dataDirExists : Bool) : LoadResult :=
  if primaryExists || dataDirExists then .fromFile else .synthesized mainFallback

/-- `test2.py` lines 12-50: read the CSV, synthesize and persist on
`FileNotFoundError`. -/
def test2Load (fileExists : Bool) : LoadResult :=
  if fileExists then .fromFile else .synthesized test2Fallback

/-- Two records with distinct occupations, for the witness. -/
def occRowA : Record := ⟨30, "Male", "Doctor", 7, 8, 3, 60, 70, 8000, "None", "Normal"⟩

/-- A second witness record. -/
def occRowB : Record := ⟨40, "Female", "Nurse", 6, 5, 6, 40, 75, 6000, "Insomnia", "Normal"⟩

/-- Witness subset with two distinct occupations. -/
def twoOccRows : List Record := [occRowA, occRowB]

/-- Witness subset with one distinct occupation. -/
def oneOccRows : List Record := [occRowA]

lemma filterGender_mem (s : FilterSpec) (l : List Record) (r : Record) :
    r ∈ filterGender s l ↔ r ∈ l ∧ (s.gender = "All" ∨ r.gender = s.gender) := by
  by_cases h : s.gender = "All" <;> simp [filterGender, h, List.mem_filter]

lemma filterAge_mem (s : FilterSpec) (l : List Record) (r : Record) :
    r ∈ filterAge s l ↔ r ∈ l ∧ (s.age_group = "All" ∨ ageGroup r.age = some s.age_group) := by
  by_cases h : s.age_group = "All" <;> simp [filterAge, h, List.mem_filter]

lemma filterOccupation_mem (s : FilterSpec) (l : List Record) (r : Record) :
    r ∈ filterOccupation s l ↔ r ∈ l ∧ (s.occupation = "All" ∨ r.occupation = s.occupation) := by
  by_cases h : s.occupation = "All" <;> simp [filterOccupation, h, List.mem_filter]

lemma filterDisorder_mem (s : FilterSpec) (l : List Record) (r : Record) :
    r ∈ filterDisorder s l ↔ r ∈ l ∧ (s.disorder = "All" ∨ r.sleep_disorder = s.disorder) := by
  by_cases h : s.disorder = "All" <;> simp [filterDisorder, h, List.mem_filter]

lemma filterGender_sublist (s : FilterSpec) (l : List Record) :
    (filterGender s l).Sublist l := by
  by_cases h : s.gender = "All" <;> simp [filterGender, h, List.filter_sublist]

lemma filterAge_sublist (s : FilterSpec) (l : List Record) :
    (filterAge s l).Sublist l := by
  by_cases h : s.age_group = "All" <;> simp [filterAge, h, List.filter_sublist]

lemma filterOccupation_sublist (s : FilterSpec) (l : List Record) :
    (filterOccupation s l).Sublist l := by
  by_cases h : s.occupation = "All" <;> simp [filterOccupation, h, List.filter_sublist]

lemma filterDisorder_sublist (s : FilterSpec) (l : List Record) :
    (filterDisorder s l).Sublist l := by
  by_cases h : s.disorder = "All" <;> simp [filterDisorder, h, List.filter_sublist]

lemma applyFilter_sublist (ds : List Record) (s : FilterSpec) :
    (applyFilter ds s).Sublist ds :=
  ((filterDisorder_sublist s _).trans
    ((filterOccupation_sublist s _).trans
      ((filterAge_sublist s _).trans (filterGender_sublist s ds))))

/-- C1: for every FilterSpec, the filter block of the callbacks returns
exactly the records of the dataset satisfying every non-"All" constraint
under case-sensitive equality, composed with AND (the spec's brute-force
reference predicate `specFilterPred`); with every field "All" the entire
dataset is returned unchanged. -/
theorem filter_engine_matches_reference (ds : List Record) (s : FilterSpec) :
    (∀ r, r ∈ applyFilter ds s ↔ r ∈ ds ∧ specFilterPred s r = true) ∧
    applyFilter ds allAllSpec = ds := by
  constructor
  · intro r
    simp only [applyFilter, filterDisorder_mem, filterOccupation_mem, filterAge_mem,
      filterGender_mem, specFilterPred, Bool.and_eq_true, Bool.or_eq_true, beq_iff_eq]
    tauto
  · simp [applyFilter, allAllSpec, filterGender, filterAge, filterOccupation, filterDisorder]

/-- C10: filtering preserves the dataset's original ordering and
multiplicities: the output of the main dashboard's filter block and of
test2's gender filter is a subsequence of the dataset, and no record
position is duplicated (counts never increase). -/
theorem filter_preserves_order_and_multiplicity (ds : List Record) (s : FilterSpec)
    (g : Option String) :
    (applyFilter ds s).Sublist ds ∧
    (∀ r, (applyFilter ds s).count r ≤ ds.count r) ∧
    ((updateDashboard ds g).2).Sublist ds ∧
    (∀ r, ((updateDashboard ds g).2).count r ≤ ds.count r) := by
  have h1 := applyFilter_sublist ds s
  have h2 : ((updateDashboard ds g).2).Sublist ds := by
    match g with
    | none => exact List.Sublist.refl ds
    | some v =>
      by_cases h : v = "All" <;> simp [updateDashboard, h, List.filter_sublist]
  exact ⟨h1, fun r => h1.count_le r, h2, fun r => h2.count_le r⟩

/-- C2 evaluated at the failing input: filtering `scenarioDataset` by the
unmatched gender "Nobody" yields the empty subset; there the code computes
`NaN` (= `none`) for all four card means and all three percentages, the
summary cards receive `NaN` (rendered "nan"), and the insight classifier —
since every comparison against `NaN` is false — emits the "healthy" and
"good" tiers with `NaN` interpolated instead of any "no data" result. -/
theorem empty_subset_nan_propagation :
    applyFilter scenarioDataset emptySpec = [] ∧
    (updateSummaryCards scenarioDataset emptySpec).2 = (none, none, none, none) ∧
    highStressPct [] = none ∧ lowActivityPct [] = none ∧ sleepDisordersPct [] = none ∧
    genInsights [] = [⟨InsightKind.durationHealthy, none⟩, ⟨InsightKind.qualityGood, none⟩] := by
  decide

/-- C4: the sleep-duration tier boundaries are exact: a mean strictly below
6 is the alert tier, a mean in [6,7) — including exactly 6 — is the concern
tier, and a mean ≥ 7 — including exactly 7 — is the healthy tier; the first
insight emitted for any filtered subset is this duration tier applied to the
subset's mean sleep duration. -/
theorem sleep_duration_tier_boundaries :
    (∀ m : ℚ,
      (sleepDurationKind (some m) = .durationAlert ↔ m < 6) ∧
      (sleepDurationKind (some m) = .durationConcern ↔ 6 ≤ m ∧ m < 7) ∧
      (sleepDurationKind (some m) = .durationHealthy ↔ 7 ≤ m)) ∧
    sleepDurationKind (some 6) = .durationConcern ∧
    sleepDurationKind (some 7) = .durationHealthy ∧
    (∀ rows : List Record,
      (genInsights rows).head? = some ⟨sleepDurationKind (avgSleep rows), avgSleep rows⟩) := by
  refine ⟨fun m => ?_, by decide, by decide, fun rows => rfl⟩
  unfold sleepDurationKind ltN
  constructor
  · constructor
    · intro h
      by_contra hlt
      simp [decide_eq_true_eq, hlt] at h
      split_ifs at h
    · intro h; simp [h]
  constructor
  · constructor
    · intro h
      by_cases h6 : m < 6
      · simp [h6] at h
      · by_cases h7 : m < 7
        · exact ⟨le_of_not_lt h6, h7⟩
        · simp [h6, h7] at h
    · rintro ⟨h6, h7⟩
      have : ¬ m < 6 := not_lt.mpr h6
      simp [this, h7]
  · constructor
    · intro h
      by_cases h6 : m < 6
      · simp [h6] at h
      · by_cases h7 : m < 7
        · simp [h6, h7] at h
        · exact le_of_not_lt h7
    · intro h
      have h6 : ¬ m < 6 := not_lt.mpr (le_trans (by norm_num) h)
      have h7 : ¬ m < 7 := not_lt.mpr h
      simp [h6, h7]

lemma scenarioMales_eq :
    scenarioMales =
      [⟨25, "Male", "Doctor", 5, 3, 9, 20, 70, 5000, "Insomnia", "Normal"⟩,
       ⟨45, "Male", "Teacher", 13/2, 6, 6, 40, 72, 7000, "None", "Overweight"⟩] := rfl

lemma meanQ_pair (a b : ℚ) : meanQ [a, b] = some ((a + b) / 2) := by
  unfold meanQ
  rw [if_neg (by simp)]
  norm_num [List.sum_cons, List.sum_nil]

lemma avgSleep_scenario : avgSleep scenarioMales = some (23/4) := by
  have h : avgSleep scenarioMales = meanQ [5, 13/2] := rfl
  rw [h, meanQ_pair]
  norm_num

lemma avgQuality_scenario : avgQuality scenarioMales = some (9/2) := by
  have h : avgQuality scenarioMales = meanQ [((3 : ℤ) : ℚ), ((6 : ℤ) : ℚ)] := rfl
  rw [h, meanQ_pair]
  norm_num

lemma sleepDisordersPct_scenario : sleepDisordersPct scenarioMales = some 50 := by
  have h : sleepDisordersPct scenarioMales = (meanQ [1, 0]).map (· * 100) := rfl
  rw [h, meanQ_pair]
  norm_num

lemma highStressPct_scenario : highStressPct scenarioMales = some 50 := by
  have h : highStressPct scenarioMales = (meanQ [1, 0]).map (· * 100) := rfl
  rw [h, meanQ_pair]
  norm_num

lemma lowActivityPct_scenario : lowActivityPct scenarioMales = some 100 := by
  have h : lowActivityPct scenarioMales = (meanQ [1, 1]).map (· * 100) := rfl
  rw [h, meanQ_pair]
  norm_num

lemma genInsights_scenario :
    genInsights scenarioMales =
      [⟨.durationAlert, some (23/4)⟩, ⟨.qualityPoor, some (9/2)⟩,
       ⟨.lowActivity, some 100⟩, ⟨.disorderPrevalence, some 50⟩] := by
  unfold genInsights
  rw [avgSleep_scenario, avgQuality_scenario, sleepDisordersPct_scenario,
    highStressPct_scenario, lowActivityPct_scenario]
  norm_num [sleepDurationKind, qualityKind, ltN, gtN]

/-- C5 counterexample: on the §8.6 dataset filtered to gender=Male, the mean
sleep duration is 5.75, which the code sends to the "alert" branch
(`avg_sleep < 6`), not the "concern" tier the claim names; and the
high-stress percentage is exactly 50, which does not pass the strict
`high_stress_pct > 50` test, so no high-stress warning is emitted. -/
theorem scenario_claim_false :
    avgSleep scenarioMales = some (23/4) ∧
    sleepDurationKind (avgSleep scenarioMales) = .durationAlert ∧
    InsightKind.durationAlert ≠ .durationConcern ∧
    highStressPct scenarioMales = some 50 ∧
    InsightKind.highStress ∉ (genInsights scenarioMales).map Insight.kind := by
  refine ⟨avgSleep_scenario, ?_, by decide, highStressPct_scenario, ?_⟩
  · rw [avgSleep_scenario]
    norm_num [sleepDurationKind, ltN]
  · rw [genInsights_scenario]
    decide

/-- C5 amended: filtering gender=Male on the §8.6 dataset yields exactly 2
records with mean sleep duration 5.75 classified into the "alert" tier
(5.75 < 6), mean quality 4.5 classified into the "poor" tier, a 50%
disorder-prevalence percentage that triggers the disorder warning
(threshold > 30%), a 100% low-activity percentage that triggers the
low-activity warning, and a 50% high-stress percentage that does NOT
trigger the high-stress warning, since the threshold requires strictly more
than 50%. -/
theorem scenario_male_amended :
    scenarioMales.length = 2 ∧
    avgSleep scenarioMales = some (23/4) ∧
    avgQuality scenarioMales = some (9/2) ∧
    sleepDisordersPct scenarioMales = some 50 ∧
    highStressPct scenarioMales = some 50 ∧
    lowActivityPct scenarioMales = some 100 ∧
    (genInsights scenarioMales).map Insight.kind =
      [.durationAlert, .qualityPoor, .lowActivity, .disorderPrevalence] := by
  refine ⟨by rw [scenarioMales_eq]; rfl, avgSleep_scenario, avgQuality_scenario,
    sleepDisordersPct_scenario, highStressPct_scenario, lowActivityPct_scenario, ?_⟩
  rw [genInsights_scenario]
  rfl

lemma sleepDurationKind_not_warning (x : Option ℚ) :
    sleepDurationKind x ≠ .highStress ∧ sleepDurationKind x ≠ .lowActivity ∧
    sleepDurationKind x ≠ .disorderPrevalence := by
  unfold sleepDurationKind
  split_ifs <;> simp

lemma qualityKind_not_warning (x : Option ℚ) :
    qualityKind x ≠ .highStress ∧ qualityKind x ≠ .lowActivity ∧
    qualityKind x ≠ .disorderPrevalence := by
  unfold qualityKind
  split_ifs <;> simp

/-- C6: for every filtered subset the insight list starts with the duration
tier, then the quality tier; the remaining entries are drawn, in the fixed
order high-stress, low-activity, disorder-prevalence, from the three
warnings; and each warning appears in the output exactly when its strict
threshold (50%, 60%, 30% respectively) is exceeded — absent whenever it is
not. -/
theorem insight_order_and_thresholds (rows : List Record) :
    ((genInsights rows).map Insight.kind).take 2 =
      [sleepDurationKind (avgSleep rows), qualityKind (avgQuality rows)] ∧
    (((genInsights rows).map Insight.kind).drop 2).Sublist
      [.highStress, .lowActivity, .disorderPrevalence] ∧
    (InsightKind.highStress ∈ (genInsights rows).map Insight.kind ↔
      gtN (highStressPct rows) 50 = true) ∧
    (InsightKind.lowActivity ∈ (genInsights rows).map Insight.kind ↔
      gtN (lowActivityPct rows) 60 = true) ∧
    (InsightKind.disorderPrevalence ∈ (genInsights rows).map Insight.kind ↔
      gtN (sleepDisordersPct rows) 30 = true) := by
  obtain ⟨hd1, hd2, hd3⟩ := sleepDurationKind_not_warning (avgSleep rows)
  obtain ⟨hq1, hq2, hq3⟩ := qualityKind_not_warning (avgQuality rows)
  have hd1s := Ne.symm hd1
  have hd2s := Ne.symm hd2
  have hd3s := Ne.symm hd3
  have hq1s := Ne.symm hq1
  have hq2s := Ne.symm hq2
  have hq3s := Ne.symm hq3
  unfold genInsights
  cases hs : gtN (highStressPct rows) 50 <;>
    cases ha : gtN (lowActivityPct rows) 60 <;>
    cases hdp : gtN (sleepDisordersPct rows) 30 <;>
    simp_all

/-- C3 counterexample: the claim asserts half-open-on-the-left bins so that
age 30 belongs to the "30-40" group and every age in [0,130] gets a label;
but `pd.cut` with `bins=[0,30,40,50,60,100]` is right-closed, so age 30 is
labelled "Under 30" (not "30-40"), age 0 gets no label at all, and age 101
gets no label. -/
theorem age_bucketing_claim_false :
    ageGroup 30 = some "Under 30" ∧ some "Under 30" ≠ some "30-40" ∧
    ageGroup 0 = none ∧ ageGroup 101 = none := by decide

/-- C3 amended: the bins are right-closed: `(0,30] ↦ "Under 30"`,
`(30,40] ↦ "30-40"`, `(40,50] ↦ "40-50"`, `(50,60] ↦ "50-60"`,
`(60,100] ↦ "Over 60"`; every integer age in [1,100] gets exactly one of the
five labels, boundary ages 30, 40, 50, 60 belong to the bin that ends at
them, and ages ≤ 0 or > 100 get no label. -/
theorem age_bucketing_characterization (a : ℤ) :
    (ageGroup a = some "Under 30" ↔ 0 < a ∧ a ≤ 30) ∧
    (ageGroup a = some "30-40" ↔ 30 < a ∧ a ≤ 40) ∧
    (ageGroup a = some "40-50" ↔ 40 < a ∧ a ≤ 50) ∧
    (ageGroup a = some "50-60" ↔ 50 < a ∧ a ≤ 60) ∧
    (ageGroup a = some "Over 60" ↔ 60 < a ∧ a ≤ 100) ∧
    (ageGroup a = none ↔ a ≤ 0 ∨ 100 < a) := by
  unfold ageGroup
  split_ifs <;> simp_all <;> omega

lemma groupAggs_map_occupation (rows : List Record) :
    (groupAggs rows).map GroupAgg.occupation = uniqueList (rows.map (·.occupation)) := by
  unfold groupAggs
  rw [List.map_map]
  exact List.map_id' _

/-- C7: when the filtered subset has more than one distinct occupation, the
occupation figure is the per-occupation aggregate table — one entry per
distinct occupation with the means over that occupation's rows — sorted by
mean quality of sleep in descending order; when it has exactly one distinct
occupation, the figure is instead the two-bar comparison between that
occupation's means over the filtered subset and the ungrouped full
dataset's means. -/
theorem occupation_grouping_behavior (full rows : List Record) :
    (1 < (uniqueList (rows.map (·.occupation))).length →
      ∃ gs, occupationAnalysis full rows = some (OccFig.grouped gs) ∧
        gs.Perm (groupAggs rows) ∧
        (gs.map GroupAgg.occupation).Perm (uniqueList (rows.map (·.occupation))) ∧
        gs.Sorted qDesc ∧
        (∀ g ∈ gs,
          g.quality = meanD (((rows.filter fun r => r.occupation == g.occupation).map
            fun r => (r.quality_of_sleep : ℚ))) ∧
          g.stress = meanD (((rows.filter fun r => r.occupation == g.occupation).map
            fun r => (r.stress_level : ℚ))) ∧
          g.duration = meanD ((rows.filter fun r => r.occupation == g.occupation).map
            (·.sleep_duration)))) ∧
    ((uniqueList (rows.map (·.occupation))).length = 1 →
      ∃ o rest r, rows = r :: rest ∧ r.occupation = o ∧
        uniqueList (rows.map (·.occupation)) = [o] ∧
        occupationAnalysis full rows =
          some (OccFig.comparison o
            (meanD (rows.map fun x => (x.quality_of_sleep : ℚ)))
            (meanD (full.map fun x => (x.quality_of_sleep : ℚ)))
            (meanD (rows.map fun x => (x.stress_level : ℚ)))
            (meanD (full.map fun x => (x.stress_level : ℚ))))) := by
  constructor
  · intro h
    refine ⟨List.insertionSort qDesc (groupAggs rows), ?_, ?_, ?_, ?_, ?_⟩
    · unfold occupationAnalysis
      rw [if_pos h]
    · exact List.perm_insertionSort qDesc (groupAggs rows)
    · have hp := (List.perm_insertionSort qDesc (groupAggs rows)).map GroupAgg.occupation
      rw [groupAggs_map_occupation] at hp
      exact hp
    · exact List.sorted_insertionSort qDesc (groupAggs rows)
    · intro g hg
      have hmem : g ∈ groupAggs rows :=
        ((List.perm_insertionSort qDesc (groupAggs rows)).mem_iff).mp hg
      unfold groupAggs at hmem
      rcases List.mem_map.mp hmem with ⟨o, _, rfl⟩
      exact ⟨rfl, rfl, rfl⟩
  · intro h
    cases rows with
    | nil => simp [uniqueList, uniqueAux] at h
    | cons r rest =>
      have hu : uniqueList ((r :: rest).map (·.occupation)) =
          r.occupation :: uniqueAux [r.occupation] (rest.map (·.occupation)) := by
        simp [uniqueList, uniqueAux]
      have htail : uniqueAux [r.occupation] (rest.map (·.occupation)) = [] := by
        rw [hu] at h
        simpa using h
      refine ⟨r.occupation, rest, r, rfl, rfl, ?_, ?_⟩
      · rw [hu, htail]
      · unfold occupationAnalysis
        rw [if_neg (by rw [hu, htail]; simp)]

/-- C7 witness: the grouped branch applies to `twoOccRows` (two distinct
occupations) and the comparison branch to `oneOccRows` (one occupation). -/
theorem occupation_grouping_behavior_witness :
    (∃ gs, occupationAnalysis twoOccRows twoOccRows = some (OccFig.grouped gs) ∧
        gs.Perm (groupAggs twoOccRows) ∧
        (gs.map GroupAgg.occupation).Perm (uniqueList (twoOccRows.map (·.occupation))) ∧
        gs.Sorted qDesc ∧
        (∀ g ∈ gs,
          g.quality = meanD (((twoOccRows.filter fun r => r.occupation == g.occupation).map
            fun r => (r.quality_of_sleep : ℚ))) ∧
          g.stress = meanD (((twoOccRows.filter fun r => r.occupation == g.occupation).map
            fun r => (r.stress_level : ℚ))) ∧
          g.duration = meanD ((twoOccRows.filter fun r => r.occupation == g.occupation).map
            (·.sleep_duration)))) ∧
    (∃ o rest r, oneOccRows = r :: rest ∧ r.occupation = o ∧
        uniqueList (oneOccRows.map (·.occupation)) = [o] ∧
        occupationAnalysis oneOccRows oneOccRows =
          some (OccFig.comparison o
            (meanD (oneOccRows.map fun x => (x.quality_of_sleep : ℚ)))
            (meanD (oneOccRows.map fun x => (x.quality_of_sleep : ℚ)))
            (meanD (oneOccRows.map fun x => (x.stress_level : ℚ)))
            (meanD (oneOccRows.map fun x => (x.stress_level : ℚ))))) :=
  ⟨(occupation_grouping_behavior twoOccRows twoOccRows).1 (by decide),
   (occupation_grouping_behavior oneOccRows oneOccRows).2 (by decide)⟩

/-- C8 counterexample: the claim requires the fallback both to persist the
generated dataset and to carry the full §3 schema including `occupation`;
but the main dashboard's fallback never writes the CSV, and test2's
fallback — the only one that persists — has no `occupation` column. -/
theorem loader_claim_false :
    mainLoad false false = .synthesized mainFallback ∧
    mainFallback.persisted = false ∧
    test2Load false = .synthesized test2Fallback ∧
    "occupation" ∉ test2Fallback.columns := by decide

/-- C8 amended: when the CSV is absent (both path candidates for the main
dashboard), each program deterministically generates a synthetic dataset of
fixed size with numpy seed 42 — the main dashboard 200 rows with every §3
column including `occupation` but WITHOUT persisting it, test2 500 rows
without the `occupation` column and persisted to the CSV path; when a file
is present, both load from it. -/
theorem loader_fallback_amended :
    mainLoad false false = .synthesized mainFallback ∧
    mainLoad true false = .fromFile ∧
    mainLoad false true = .fromFile ∧
    mainFallback.seed = 42 ∧ mainFallback.nSamples = 200 ∧
    "occupation" ∈ mainFallback.columns ∧ mainFallback.persisted = false ∧
    test2Load false = .synthesized test2Fallback ∧
    test2Load true = .fromFile ∧
    test2Fallback.seed = 42 ∧ test2Fallback.nSamples = 500 ∧
    "occupation" ∉ test2Fallback.columns ∧ test2Fallback.persisted = true := by decide

/-- C9: every callback leaves the global dataset unchanged — filtering and
the BMI-category relabelling operate on copies only, so after any callback
(any filter values, any tab, and in test2 any gender selection) the global
dataset equals its load-time value, record for record and column for
column. -/
theorem callbacks_preserve_dataset (df : List Record) (s : FilterSpec) (tab : String)
    (g : Option String) :
    (updateSummaryCards df s).1 = df ∧
    (updateSleepPatterns df s).1 = df ∧
    (updateFactorContent df tab s).1 = df ∧
    (updateTrendAnalysis df s).1 = df ∧
    (updatePersonalizedInsights df s).1 = df ∧
    (updateDashboard df g).1 = df := by
  refine ⟨rfl, rfl, ?_, rfl, rfl, ?_⟩
  · unfold updateFactorContent
    split_ifs <;> rfl
  · cases g with
    | none => rfl
    | some v =>
      simp only [updateDashboard]
      split_ifs <;> rfl
